import Mathlib

/-!
Verification of the natality and taxi-fare preprocessing notebooks.

The development shallowly embeds the row-transform functions, the
pipeline construction, the dataset-split predicates and the
exception-handling shape of the notebook cells, and proves the
specified properties about them.
-/

set_option maxRecDepth 4000

/-- Values appearing in a BigQuery row dictionary.  A float is carried
together with its Python string rendering, since only that rendering is
observable in the CSV output. -/
inductive PyVal where
  | int (n : Int)
  | bool (b : Bool)
  | str (s : String)
  | float (render : String)
deriving DecidableEq, Repr

/-- A Python dictionary from column names to values, modelled as an
association list with unique keys (last write wins on update). -/
abbrev Row := List (String × PyVal)

/-- Python str() of a value. -/
def pyStr : PyVal → String
  | .int n => toString n
  | .bool b => if b then "True" else "False"
  | .str s => s
  | .float render => render

/-- Python int-compatibility of a value: a genuine int, or a bool
(Python bools are ints, True being 1 and False 0).  Any other type
raises a TypeError when compared with or used to index a list. -/
def PyVal.toInt? : PyVal → Option Int
  | .int n => some n
  | .bool b => some (if b then 1 else 0)
  | _ => none

/-- Dictionary read, d[k] for an association list. -/
def lookupRow : Row → String → Option PyVal
  | [], _ => none
  | (k', v) :: rest, k => if k' = k then some v else lookupRow rest k

/-- Dictionary write, d[k] = v: replaces the existing binding of k or
appends a new one. -/
def setKey : Row → String → PyVal → Row
  | [], k, v => [(k, v)]
  | (k', v') :: rest, k, v =>
      if k' = k then (k, v) :: rest else (k', v') :: setKey rest k v

/-- Python list indexing xs[i]: nonnegative indices from the front,
negative indices from the back, IndexError (none) outside [-len, len). -/
def pyGet (xs : List String) (i : Int) : Option String :=
  if 0 ≤ i then xs[i.toNat]?
  else if 0 ≤ i + xs.length then xs[(i + xs.length).toNat]?
  else none

/-- The babyweight CSV columns:
the comma-split of "weight_pounds,is_male,mother_age,plurality,gestation_weeks". -/
def CSV_COLUMNS : List String :=
  ["weight_pounds", "is_male", "mother_age", "plurality", "gestation_weeks"]

/-- The literal list indexed by plurality - 1 in the babyweight to_csv. -/
def pluralityNames : List String :=
  ["Single(1)", "Twins(2)", "Triplets(3)", "Quadruplets(4)", "Quintuplets(5)"]

/-- One output line of the babyweight to_csv:
the comma join of str(result[k]) if k in result else "None", over CSV_COLUMNS. -/
def formatRecord (result : Row) : String :=
  String.intercalate ","
    (CSV_COLUMNS.map (fun k =>
      match lookupRow result k with
      | some v => pyStr v
      | none => "None"))

/-- The two records built by the babyweight to_csv before formatting:
no_ultrasound and w_ultrasound are deep copies of rowdict; is_male of
the first becomes "Unknown" and its plurality "Multiple(2+)" when
rowdict["plurality"] > 1, else "Single(1)"; the plurality of the second
becomes the (plurality - 1)-th element of pluralityNames.  A missing
plurality key (KeyError), a plurality that is not an int (TypeError) or
an out-of-range list index (IndexError) raises, modelled as none. -/
def to_csv_records (rowdict : Row) : Option (List Row) :=
  match lookupRow rowdict "plurality" with
  | none => none
  | some pv =>
    match pv.toInt? with
    | none => none
    | some p =>
      let nu0 := setKey rowdict "is_male" (PyVal.str "Unknown")
      let no_ultrasound :=
        if p > 1 then setKey nu0 "plurality" (PyVal.str "Multiple(2+)")
        else setKey nu0 "plurality" (PyVal.str "Single(1)")
      match pyGet pluralityNames (p - 1) with
      | none => none
      | some name =>
        let w_ultrasound := setKey rowdict "plurality" (PyVal.str name)
        some [no_ultrasound, w_ultrasound]

/-- The babyweight to_csv: yields formatRecord of each of the two
records, or raises (none). -/
def to_csv (rowdict : Row) : Option (List String) :=
  match to_csv_records rowdict with
  | none => none
  | some records => some (records.map formatRecord)

/-- The taxi-fare CSV columns:
the comma-split of
"fare_amount,dayofweek,hourofday,pickuplon,pickuplat,dropofflon,dropofflat". -/
def TAXI_CSV_COLUMNS : List String :=
  ["fare_amount", "dayofweek", "hourofday",
   "pickuplon", "pickuplat", "dropofflon", "dropofflat"]

/-- The unused days list defined at the top of the taxi-fare to_csv. -/
def days : List String := ["null", "Sun", "Mon", "Tue", "Wed", "Thu", "Fri", "Sat"]

/-- The list comprehension [rowdict[k] for k in ks]: all values in key
order, KeyError (none) as soon as a key is missing. -/
def lookupAll (ks : List String) (r : Row) : Option (List PyVal) :=
  match ks with
  | [] => some []
  | k :: rest =>
    match lookupRow r k, lookupAll rest r with
    | some v, some vs => some (v :: vs)
    | _, _ => none

/-- The taxi-fare to_csv:
the comma join of str(rowdict[k]) over CSV_COLUMNS. -/
def taxi_to_csv (rowdict : Row) : Option String :=
  match lookupAll TAXI_CSV_COLUMNS rowdict with
  | none => none
  | some vs => some (String.intercalate "," (vs.map pyStr))

/-- Reading a key after a dictionary write: the written value at the
written key, the old value elsewhere. -/
theorem lookup_setKey (r : Row) (k k' : String) (v : PyVal) :
    lookupRow (setKey r k v) k' = if k = k' then some v else lookupRow r k' := by
  induction r with
  | nil => simp [setKey, lookupRow]
  | cons hd tl ih =>
    obtain ⟨k0, v0⟩ := hd
    by_cases h0 : k0 = k
    · subst h0
      by_cases h1 : k0 = k'
      · subst h1; simp [setKey, lookupRow]
      · have h2 : ¬ k0 = k' := h1
        have h3 : ¬ k' = k0 := fun h => h1 h.symm
        simp [setKey, lookupRow, h2, h3]
    · by_cases h1 : k0 = k'
      · subst h1
        have : ¬ k = k0 := fun h => h0 h.symm
        simp [setKey, lookupRow, h0, this]
      · simp [setKey, lookupRow, h0, h1, ih]

/-- When the plurality key holds an int p and the list index p - 1 is in
range, to_csv_records succeeds and returns the no-ultrasound record
(is_male "Unknown", plurality "Multiple(2+)" for p > 1 and "Single(1)"
otherwise) followed by the with-ultrasound record (plurality renamed). -/
theorem to_csv_records_eq (r : Row) (p : Int) (name : String)
    (hp : lookupRow r "plurality" = some (PyVal.int p))
    (hname : pyGet pluralityNames (p - 1) = some name) :
    to_csv_records r = some
      [setKey (setKey r "is_male" (PyVal.str "Unknown")) "plurality"
         (PyVal.str (if p > 1 then "Multiple(2+)" else "Single(1)")),
       setKey r "plurality" (PyVal.str name)] := by
  by_cases h : p > 1 <;> simp [to_csv_records, hp, PyVal.toInt?, hname, h]

/-- C4 (amended: the input plurality must lie between 1 and 5): for
every natality row dictionary containing the expected columns with
plurality n in that range, to_csv yields exactly two CSV lines of five
comma-separated fields each, hashmonth dropped; the first line has
is_male replaced by "Unknown" and plurality replaced by "Multiple(2+)"
when n > 1 and "Single(1)" otherwise; the second has plurality replaced
by the n-th element of pluralityNames; the other fields are str of the
input values. -/
theorem babyweight_to_csv_two_lines (r : Row) (wp im ma gw : PyVal) (p : Int)
    (hwp : lookupRow r "weight_pounds" = some wp)
    (him : lookupRow r "is_male" = some im)
    (hma : lookupRow r "mother_age" = some ma)
    (hgw : lookupRow r "gestation_weeks" = some gw)
    (hp : lookupRow r "plurality" = some (PyVal.int p))
    (h1 : 1 ≤ p) (h5 : p ≤ 5) :
    to_csv r = some
      [String.intercalate "," [pyStr wp, "Unknown", pyStr ma,
         (if p > 1 then "Multiple(2+)" else "Single(1)"), pyStr gw],
       String.intercalate "," [pyStr wp, pyStr im, pyStr ma,
         pluralityNames.getD (p - 1).toNat "", pyStr gw]] := by
  interval_cases p <;>
    simp [to_csv, to_csv_records, PyVal.toInt?, pyGet, pluralityNames,
      formatRecord, CSV_COLUMNS, lookup_setKey, hwp, him, hma, hgw, hp, pyStr]

/-- C4 counterexample: a natality row containing every expected column,
with plurality 6, makes to_csv raise an IndexError (none) instead of
yielding two CSV lines. -/
theorem babyweight_to_csv_sextuplet_raises :
    to_csv [("weight_pounds", PyVal.float "6.2"), ("is_male", PyVal.bool false),
      ("mother_age", PyVal.int 33), ("plurality", PyVal.int 6),
      ("gestation_weeks", PyVal.int 35), ("hashmonth", PyVal.int 77)] = none := by
  decide

/-- C4 witness: the two lines produced for a concrete twins row. -/
theorem babyweight_to_csv_two_lines_witness :
    to_csv [("weight_pounds", PyVal.float "7.5"), ("is_male", PyVal.bool true),
      ("mother_age", PyVal.int 29), ("plurality", PyVal.int 2),
      ("gestation_weeks", PyVal.int 38), ("hashmonth", PyVal.int 1234567)] =
    some ["7.5,Unknown,29,Multiple(2+),38", "7.5,True,29,Twins(2),38"] := by
  have h := babyweight_to_csv_two_lines
    [("weight_pounds", PyVal.float "7.5"), ("is_male", PyVal.bool true),
     ("mother_age", PyVal.int 29), ("plurality", PyVal.int 2),
     ("gestation_weeks", PyVal.int 38), ("hashmonth", PyVal.int 1234567)]
    (PyVal.float "7.5") (PyVal.bool true) (PyVal.int 29) (PyVal.int 38) 2
    rfl rfl rfl rfl rfl (by decide) (by decide)
  exact h.trans (by decide)

/-- C1 (amended: totality holds only on rows that contain the expected
keys, with the babyweight plurality between 1 and 5): the babyweight
to_csv produces its two CSV lines for every row whose plurality key
holds an int in [1, 5], and the taxi-fare to_csv produces its line for
every row containing all seven expected keys. -/
theorem to_csv_total_on_expected_rows :
    (∀ (r : Row) (p : Int), lookupRow r "plurality" = some (PyVal.int p) →
      1 ≤ p → p ≤ 5 → (to_csv r).isSome = true) ∧
    (∀ (r : Row) (vs : List PyVal), lookupAll TAXI_CSV_COLUMNS r = some vs →
      (taxi_to_csv r).isSome = true) := by
  constructor
  · intro r p hp h1 h5
    interval_cases p <;>
      simp [to_csv, to_csv_records, hp, PyVal.toInt?, pyGet, pluralityNames]
  · intro r vs h
    simp [taxi_to_csv, h]

/-- C1 counterexample: the row-transform functions are not total on all
input dictionaries: the babyweight to_csv raises IndexError for the
integer plurality 6 even with every expected column present, raises
KeyError when the plurality key is missing, and the taxi-fare to_csv
raises KeyError when a column such as fare_amount is missing. -/
theorem to_csv_raises_on_unexpected_rows :
    to_csv [("weight_pounds", PyVal.float "8.0"), ("is_male", PyVal.bool true),
      ("mother_age", PyVal.int 30), ("plurality", PyVal.int 6),
      ("gestation_weeks", PyVal.int 39), ("hashmonth", PyVal.int 5)] = none ∧
    to_csv [("weight_pounds", PyVal.float "8.0")] = none ∧
    taxi_to_csv [("dayofweek", PyVal.int 3)] = none := by
  decide

/-- C1 witness: both totality statements applied at concrete rows. -/
theorem to_csv_total_on_expected_rows_witness :
    (to_csv [("plurality", PyVal.int 3)]).isSome = true ∧
    (taxi_to_csv [("fare_amount", PyVal.int 10), ("dayofweek", PyVal.int 1),
      ("hourofday", PyVal.int 2), ("pickuplon", PyVal.float "1.0"),
      ("pickuplat", PyVal.float "2.0"), ("dropofflon", PyVal.float "3.0"),
      ("dropofflat", PyVal.float "4.0")]).isSome = true :=
  ⟨to_csv_total_on_expected_rows.1 [("plurality", PyVal.int 3)] 3 rfl
      (by decide) (by decide),
   to_csv_total_on_expected_rows.2 _
      [PyVal.int 10, PyVal.int 1, PyVal.int 2, PyVal.float "1.0",
       PyVal.float "2.0", PyVal.float "3.0", PyVal.float "4.0"] rfl⟩

/-- C3 (amended: the SQL filters must be strengthened with plurality at
most 5): for every int plurality p with 0 < p and p ≤ 5, the list
indexing of the babyweight to_csv succeeds and the function raises no
exception on any row carrying such a plurality. -/
theorem indexing_safe_with_plurality_bound :
    ∀ (p : Int), 0 < p → p ≤ 5 →
      (pyGet pluralityNames (p - 1)).isSome = true ∧
      ∀ (r : Row), lookupRow r "plurality" = some (PyVal.int p) →
        (to_csv r).isSome = true := by
  intro p h1 h5
  constructor
  · interval_cases p <;> decide
  · intro r hp
    interval_cases p <;>
      simp [to_csv, to_csv_records, hp, PyVal.toInt?, pyGet, pluralityNames]

/-- C3 counterexample: the plurality 6 passes every SQL filter of the
query (weight_pounds > 0, mother_age > 0, plurality > 0,
gestation_weeks > 0, month > 0) yet reaches the IndexError branch: the
list indexing fails and to_csv raises on a row satisfying all filters. -/
theorem filters_insufficient_for_indexing :
    (0 : Int) < 6 ∧ pyGet pluralityNames (6 - 1) = none ∧
    to_csv [("weight_pounds", PyVal.float "5.5"), ("is_male", PyVal.bool true),
      ("mother_age", PyVal.int 41), ("plurality", PyVal.int 6),
      ("gestation_weeks", PyVal.int 30), ("hashmonth", PyVal.int 9)] = none := by
  decide

/-- C3 witness: the bound applied at the concrete plurality 4. -/
theorem indexing_safe_with_plurality_bound_witness :
    (pyGet pluralityNames (4 - 1)).isSome = true ∧
    (to_csv [("plurality", PyVal.int 4)]).isSome = true :=
  ⟨(indexing_safe_with_plurality_bound 4 (by decide) (by decide)).1,
   (indexing_safe_with_plurality_bound 4 (by decide) (by decide)).2
      [("plurality", PyVal.int 4)] rfl⟩

/-- The CASE expression of the ultrasound branch of the BigQuery union
query: plurality 1 to 5 map to the five names, anything else to the
string "NULL". -/
def bqUltrasoundPlurality (p : Int) : String :=
  if p = 1 then "Single(1)"
  else if p = 2 then "Twins(2)"
  else if p = 3 then "Triplets(3)"
  else if p = 4 then "Quadruplets(4)"
  else if p = 5 then "Quintuplets(5)"
  else "NULL"

/-- The CASE expression of the no-ultrasound branch of the BigQuery
union query: "Single(1)" for plurality 1, "Multiple(2+)" above 1, and
(there being no ELSE) SQL NULL otherwise. -/
def bqNoUltrasoundPlurality (p : Int) : Option String :=
  if p = 1 then some "Single(1)"
  else if p > 1 then some "Multiple(2+)"
  else none

/-- The constant is_male column of the no-ultrasound branch of the
BigQuery union query. -/
def bqNoUltrasoundIsMale : String := "Unknown"

/-- C5: on the common domain (rows passing the shared filters with
plurality between 1 and 5) the Beam to_csv and the BigQuery union query
agree: the no-ultrasound record carries is_male "Unknown" and the
plurality of the no-ultrasound CASE, and the with-ultrasound record
keeps the input is_male and carries the plurality of the ultrasound
CASE. -/
theorem beam_bq_preprocessing_equiv (r : Row) (p : Int)
    (hp : lookupRow r "plurality" = some (PyVal.int p))
    (h1 : 1 ≤ p) (h5 : p ≤ 5) :
    ∃ nu wu, to_csv_records r = some [nu, wu] ∧
      lookupRow nu "is_male" = some (PyVal.str bqNoUltrasoundIsMale) ∧
      lookupRow nu "plurality" = (bqNoUltrasoundPlurality p).map PyVal.str ∧
      lookupRow wu "is_male" = lookupRow r "is_male" ∧
      lookupRow wu "plurality" = some (PyVal.str (bqUltrasoundPlurality p)) := by
  interval_cases p
  · exact ⟨_, _, to_csv_records_eq r 1 "Single(1)" hp (by decide),
      by simp [lookup_setKey, bqNoUltrasoundIsMale],
      by simp [lookup_setKey, bqNoUltrasoundPlurality],
      by simp [lookup_setKey],
      by simp [lookup_setKey, bqUltrasoundPlurality]⟩
  · exact ⟨_, _, to_csv_records_eq r 2 "Twins(2)" hp (by decide),
      by simp [lookup_setKey, bqNoUltrasoundIsMale],
      by simp [lookup_setKey, bqNoUltrasoundPlurality],
      by simp [lookup_setKey],
      by simp [lookup_setKey, bqUltrasoundPlurality]⟩
  · exact ⟨_, _, to_csv_records_eq r 3 "Triplets(3)" hp (by decide),
      by simp [lookup_setKey, bqNoUltrasoundIsMale],
      by simp [lookup_setKey, bqNoUltrasoundPlurality],
      by simp [lookup_setKey],
      by simp [lookup_setKey, bqUltrasoundPlurality]⟩
  · exact ⟨_, _, to_csv_records_eq r 4 "Quadruplets(4)" hp (by decide),
      by simp [lookup_setKey, bqNoUltrasoundIsMale],
      by simp [lookup_setKey, bqNoUltrasoundPlurality],
      by simp [lookup_setKey],
      by simp [lookup_setKey, bqUltrasoundPlurality]⟩
  · exact ⟨_, _, to_csv_records_eq r 5 "Quintuplets(5)" hp (by decide),
      by simp [lookup_setKey, bqNoUltrasoundIsMale],
      by simp [lookup_setKey, bqNoUltrasoundPlurality],
      by simp [lookup_setKey],
      by simp [lookup_setKey, bqUltrasoundPlurality]⟩

/-- C5 witness: the equivalence applied at a concrete twins row. -/
theorem beam_bq_preprocessing_equiv_witness :
    ∃ nu wu,
      to_csv_records [("is_male", PyVal.bool false), ("plurality", PyVal.int 2)] =
        some [nu, wu] ∧
      lookupRow nu "is_male" = some (PyVal.str bqNoUltrasoundIsMale) ∧
      lookupRow nu "plurality" = (bqNoUltrasoundPlurality 2).map PyVal.str ∧
      lookupRow wu "is_male" =
        lookupRow [("is_male", PyVal.bool false), ("plurality", PyVal.int 2)] "is_male" ∧
      lookupRow wu "plurality" = some (PyVal.str (bqUltrasoundPlurality 2)) :=
  beam_bq_preprocessing_equiv
    [("is_male", PyVal.bool false), ("plurality", PyVal.int 2)] 2
    rfl (by decide) (by decide)

/-- C8: for every taxi-trip row dictionary containing the seven expected
keys, the taxi-fare to_csv returns a single comma-separated line holding
str of each value in the fixed column order fare_amount, dayofweek,
hourofday, pickuplon, pickuplat, dropofflon, dropofflat, and emits
nothing else. -/
theorem taxi_to_csv_single_line (r : Row) (fa dw hd plon plat dlon dlat : PyVal)
    (hfa : lookupRow r "fare_amount" = some fa)
    (hdw : lookupRow r "dayofweek" = some dw)
    (hhd : lookupRow r "hourofday" = some hd)
    (hplon : lookupRow r "pickuplon" = some plon)
    (hplat : lookupRow r "pickuplat" = some plat)
    (hdlon : lookupRow r "dropofflon" = some dlon)
    (hdlat : lookupRow r "dropofflat" = some dlat) :
    taxi_to_csv r = some (String.intercalate ","
      [pyStr fa, pyStr dw, pyStr hd, pyStr plon, pyStr plat, pyStr dlon, pyStr dlat]) := by
  simp [taxi_to_csv, lookupAll, TAXI_CSV_COLUMNS,
    hfa, hdw, hhd, hplon, hplat, hdlon, hdlat]

/-- C8 witness: the single line produced for a concrete taxi row. -/
theorem taxi_to_csv_single_line_witness :
    taxi_to_csv [("fare_amount", PyVal.float "12.5"), ("dayofweek", PyVal.int 3),
      ("hourofday", PyVal.int 15), ("pickuplon", PyVal.float "-73.99"),
      ("pickuplat", PyVal.float "40.75"), ("dropofflon", PyVal.float "-73.98"),
      ("dropofflat", PyVal.float "40.74")] =
    some "12.5,3,15,-73.99,40.75,-73.98,40.74" := by
  have h := taxi_to_csv_single_line
    [("fare_amount", PyVal.float "12.5"), ("dayofweek", PyVal.int 3),
     ("hourofday", PyVal.int 15), ("pickuplon", PyVal.float "-73.99"),
     ("pickuplat", PyVal.float "40.75"), ("dropofflon", PyVal.float "-73.98"),
     ("dropofflat", PyVal.float "40.74")]
    (PyVal.float "12.5") (PyVal.int 3) (PyVal.int 15) (PyVal.float "-73.99")
    (PyVal.float "40.75") (PyVal.float "-73.98") (PyVal.float "40.74")
    rfl rfl rfl rfl rfl rfl rfl
  exact h.trans (by decide)

/-- Two dictionaries with the same lookups give the same comprehension
values. -/
theorem lookupAll_ext (ks : List String) (r1 r2 : Row)
    (h : ∀ k, lookupRow r1 k = lookupRow r2 k) :
    lookupAll ks r1 = lookupAll ks r2 := by
  induction ks with
  | nil => rfl
  | cons k rest ih => simp [lookupAll, h k, ih]

/-- Two dictionaries with the same lookups format to the same CSV line. -/
theorem formatRecord_ext (r1 r2 : Row)
    (h : ∀ k, lookupRow r1 k = lookupRow r2 k) :
    formatRecord r1 = formatRecord r2 := by
  unfold formatRecord
  exact congrArg (String.intercalate ",")
    (List.map_congr_left (fun k _ => by rw [h k]))

/-- Dictionary writes preserve lookup agreement. -/
theorem setKey_ext (r1 r2 : Row)
    (h : ∀ k, lookupRow r1 k = lookupRow r2 k) (k0 : String) (v : PyVal) :
    ∀ k, lookupRow (setKey r1 k0 v) k = lookupRow (setKey r2 k0 v) k := by
  intro k
  rw [lookup_setKey, lookup_setKey, h k]

/-- C10: each to_csv is deterministic: two calls on equal dictionaries
(same value at every key, whatever the association-list representation)
produce the same output, with no dependence on time, randomness, or
state outside the row. -/
theorem to_csv_deterministic :
    (∀ (r1 r2 : Row), (∀ k, lookupRow r1 k = lookupRow r2 k) →
      to_csv r1 = to_csv r2) ∧
    (∀ (r1 r2 : Row), (∀ k, lookupRow r1 k = lookupRow r2 k) →
      taxi_to_csv r1 = taxi_to_csv r2) := by
  constructor
  · intro r1 r2 h
    cases hv : lookupRow r2 "plurality" with
    | none => simp [to_csv, to_csv_records, h "plurality", hv]
    | some pv =>
      cases hi : pv.toInt? with
      | none => simp [to_csv, to_csv_records, h "plurality", hv, hi]
      | some p =>
        cases hg : pyGet pluralityNames (p - 1) with
        | none => simp [to_csv, to_csv_records, h "plurality", hv, hi, hg]
        | some name =>
          have e1 : formatRecord
              (setKey (setKey r1 "is_male" (PyVal.str "Unknown")) "plurality"
                (PyVal.str "Multiple(2+)")) = formatRecord
              (setKey (setKey r2 "is_male" (PyVal.str "Unknown")) "plurality"
                (PyVal.str "Multiple(2+)")) :=
            formatRecord_ext _ _
              (setKey_ext _ _ (setKey_ext r1 r2 h "is_male" (PyVal.str "Unknown")) _ _)
          have e1' : formatRecord
              (setKey (setKey r1 "is_male" (PyVal.str "Unknown")) "plurality"
                (PyVal.str "Single(1)")) = formatRecord
              (setKey (setKey r2 "is_male" (PyVal.str "Unknown")) "plurality"
                (PyVal.str "Single(1)")) :=
            formatRecord_ext _ _
              (setKey_ext _ _ (setKey_ext r1 r2 h "is_male" (PyVal.str "Unknown")) _ _)
          have e2 : formatRecord (setKey r1 "plurality" (PyVal.str name)) =
              formatRecord (setKey r2 "plurality" (PyVal.str name)) :=
            formatRecord_ext _ _ (setKey_ext r1 r2 h _ _)
          by_cases hpp : p > 1 <;>
            simp [to_csv, to_csv_records, h "plurality", hv, hi, hg, hpp, e1, e1', e2]
  · intro r1 r2 h
    unfold taxi_to_csv
    rw [lookupAll_ext TAXI_CSV_COLUMNS r1 r2 h]

/-- C10 witness: two representations of the same dictionary, differing
in binding order, produce identical output for both functions. -/
theorem to_csv_deterministic_witness :
    to_csv [("plurality", PyVal.int 2), ("mother_age", PyVal.int 30)] =
      to_csv [("mother_age", PyVal.int 30), ("plurality", PyVal.int 2)] ∧
    taxi_to_csv [("plurality", PyVal.int 2), ("mother_age", PyVal.int 30)] =
      taxi_to_csv [("mother_age", PyVal.int 30), ("plurality", PyVal.int 2)] := by
  have hext : ∀ k,
      lookupRow [("plurality", PyVal.int 2), ("mother_age", PyVal.int 30)] k =
      lookupRow [("mother_age", PyVal.int 30), ("plurality", PyVal.int 2)] k := by
    intro k
    by_cases h1 : "plurality" = k
    · subst h1; decide
    · by_cases h2 : "mother_age" = k
      · subst h2; decide
      · simp [lookupRow, h1, h2]
  exact ⟨to_csv_deterministic.1 _ _ hext, to_csv_deterministic.2 _ _ hext⟩

/-- The train split of both babyweight loops:
WHERE MOD(hashmonth, 100) < 80, hashmonth being the nonnegative
ABS(FARM_FINGERPRINT(...)). -/
def trainFilter (hashmonth : Nat) : Bool := hashmonth % 100 < 80

/-- The eval split of both babyweight loops:
WHERE MOD(hashmonth, 100) >= 80 AND MOD(hashmonth, 100) < 90. -/
def evalFilter (hashmonth : Nat) : Bool :=
  80 ≤ hashmonth % 100 && hashmonth % 100 < 90

/-- The TRAIN subsample of create_query, on the bucket
MOD(ABS(FARM_FINGERPRINT(CAST(pickup_datetime AS STRING))), EVERY_N * 100):
bucket >= EVERY_N * 0 AND bucket < EVERY_N * 70. -/
def trainSubsample (everyN bucket : Nat) : Bool :=
  everyN * 0 ≤ bucket && bucket < everyN * 70

/-- The VALID subsample of create_query:
bucket >= EVERY_N * 70 AND bucket < EVERY_N * 85. -/
def validSubsample (everyN bucket : Nat) : Bool :=
  everyN * 70 ≤ bucket && bucket < everyN * 85

/-- The TEST subsample of create_query:
bucket >= EVERY_N * 85 AND bucket < EVERY_N * 100. -/
def testSubsample (everyN bucket : Nat) : Bool :=
  everyN * 85 ≤ bucket && bucket < everyN * 100

/-- C7: the dataset split predicates are pairwise disjoint: no hashmonth
satisfies both the train and the eval filter, a hashmonth with residue
at least 90 satisfies neither, and the TRAIN, VALID and TEST subsample
ranges of create_query are pairwise disjoint for every EVERY_N and
bucket. -/
theorem split_predicates_disjoint :
    ∀ (h everyN bucket : Nat),
      ¬(trainFilter h = true ∧ evalFilter h = true) ∧
      (90 ≤ h % 100 → trainFilter h = false ∧ evalFilter h = false) ∧
      ¬(trainSubsample everyN bucket = true ∧ validSubsample everyN bucket = true) ∧
      ¬(validSubsample everyN bucket = true ∧ testSubsample everyN bucket = true) ∧
      ¬(trainSubsample everyN bucket = true ∧ testSubsample everyN bucket = true) := by
  intro h everyN bucket
  refine ⟨?_, fun h90 => ⟨?_, ?_⟩, ?_, ?_, ?_⟩ <;>
    simp [trainFilter, evalFilter, trainSubsample, validSubsample, testSubsample] <;>
    omega

/-- C7 witness: the disjointness statements at a hashmonth with residue
95 and at EVERY_N 7, bucket 100. -/
theorem split_predicates_disjoint_witness :
    ¬(trainFilter 295 = true ∧ evalFilter 295 = true) ∧
    (trainFilter 295 = false ∧ evalFilter 295 = false) ∧
    ¬(trainSubsample 7 100 = true ∧ validSubsample 7 100 = true) :=
  ⟨(split_predicates_disjoint 295 7 100).1,
   (split_predicates_disjoint 295 7 100).2.1 (by decide),
   (split_predicates_disjoint 295 7 100).2.2.1⟩

/-- A stage of the Beam pipeline as constructed by preprocess: a
BigQuery read with a query string, a FlatMap through a row transform, or
a text write to a path. -/
inductive Stage where
  | read (query : String)
  | flatMap (f : Row → Option (List String))
  | write (path : String)

/-- The natality query of the babyweight preprocess, with the non-null
filters of the WHERE clause. -/
def babyweightQuery : String :=
  "\nSELECT\n    weight_pounds,\n    is_male,\n    mother_age,\n    plurality,\n    gestation_weeks,\n    ABS(FARM_FINGERPRINT(CONCAT(CAST(YEAR AS STRING), CAST(month AS STRING)))) AS hashmonth\nFROM\n    publicdata.samples.natality\nWHERE\n    year > 2000\n    AND weight_pounds > 0\n    AND mother_age > 0\n    AND plurality > 0\n    AND gestation_weeks > 0\n    AND month > 0\n"

/-- The per-step query of the preprocess loop: the train branch keeps
MOD(hashmonth, 100) < 80, the eval branch keeps residues in [80, 90),
and the else branch (never reached for the steps train and eval) keeps
residues of at least 90. -/
def selquery (step query : String) : String :=
  if step = "train" then
    "SELECT * FROM (" ++ query ++ ") WHERE MOD(hashmonth, 100) < 80"
  else if step = "eval" then
    "SELECT * FROM (" ++ query ++
      ") WHERE MOD(hashmonth, 100) >= 80 AND MOD(hashmonth, 100) < 90"
  else
    "SELECT * FROM (" ++ query ++ ") WHERE MOD(hashmonth, 100) >= 90"

/-- os.path.join for the paths appearing here: appends with a single
separator. -/
def pathJoin (a b : String) : String :=
  if a.endsWith "/" then a ++ b else a ++ "/" ++ b

/-- The babyweight OUTPUT_DIR: ./preproc in test mode, the bucket
preproc folder otherwise. -/
def outputDir (in_test_mode : Bool) (bucket : String) : String :=
  if in_test_mode then "./preproc"
  else "gs://" ++ bucket ++ "/babyweight/preproc/"

/-- The query actually read: LIMIT 100 is appended in test mode. -/
def effectiveQuery (in_test_mode : Bool) : String :=
  if in_test_mode then babyweightQuery ++ " LIMIT 100" else babyweightQuery

/-- The pipeline built by preprocess: for each step in [train, eval],
a read of that step query, a FlatMap through to_csv, and a write to
OUTPUT_DIR/step.csv. -/
def preprocessPipeline (in_test_mode : Bool) (bucket : String) :
    List (String × List Stage) :=
  ["train", "eval"].map (fun step =>
    (step, [Stage.read (selquery step (effectiveQuery in_test_mode)),
            Stage.flatMap to_csv,
            Stage.write (pathJoin (outputDir in_test_mode bucket) (step ++ ".csv"))]))

/-- C6: for each step in [train, eval] the pipeline consists of exactly
three linear stages in order: a BigQuery read with that step query, a
FlatMap through to_csv, and a text write to OUTPUT_DIR/step.csv, with no
other transform, branch, retry or error-handling stage between them. -/
theorem preprocess_three_linear_stages :
    ∀ (in_test_mode : Bool) (bucket : String),
      preprocessPipeline in_test_mode bucket =
        [("train",
          [Stage.read ("SELECT * FROM (" ++ effectiveQuery in_test_mode ++
             ") WHERE MOD(hashmonth, 100) < 80"),
           Stage.flatMap to_csv,
           Stage.write (pathJoin (outputDir in_test_mode bucket) "train.csv")]),
         ("eval",
          [Stage.read ("SELECT * FROM (" ++ effectiveQuery in_test_mode ++
             ") WHERE MOD(hashmonth, 100) >= 80 AND MOD(hashmonth, 100) < 90"),
           Stage.flatMap to_csv,
           Stage.write (pathJoin (outputDir in_test_mode bucket) "eval.csv")])] := by
  intro in_test_mode bucket
  simp [preprocessPipeline, selquery]

/-- An exception raised by a cloud client library or a CLI tool, such as
the Conflict raised by create_dataset when the dataset exists, or a
nonzero exit of a gsutil call. -/
inductive CloudError where
  | conflict
  | other (msg : String)
deriving DecidableEq, Repr

/-- The cleanup step of the babyweight preprocess:
try: subprocess.check_call(gsutil -m rm -r OUTPUT_DIR) except: pass.
The bare except swallows every exception of the call. -/
def gsutilRmCleanup (callResult : Except CloudError Unit) : Except CloudError Unit :=
  match callResult with
  | .ok _ => .ok ()
  | .error _ => .ok ()

/-- The temp_babyweight_dataset creation cell:
try: client.create_dataset(dataset); print created except: print exists.
The bare except swallows every exception; the cell returns the printed
message either way. -/
def createDatasetCell (project dsId : String)
    (apiResult : Except CloudError String) : Except CloudError String :=
  match apiResult with
  | .ok createdId => .ok ("Created dataset " ++ project ++ "." ++ createdId)
  | .error _ => .ok ("Dataset " ++ project ++ "." ++ dsId ++ " already exists")

/-- The bqml_taxifare dataset creation cell of the taxi notebook:
try: bq.create_dataset(dataset); print created except: print exists. -/
def createTaxiDatasetCell (apiResult : Except CloudError Unit) :
    Except CloudError String :=
  match apiResult with
  | .ok _ => .ok "Dataset created"
  | .error _ => .ok "Dataset already exists"

/-- The dataframe cell df = bq.query(query_string).to_dataframe(): no
handler, so a client-library failure propagates to the caller. -/
def queryToDataframeCell {α : Type} (apiResult : Except CloudError α) :
    Except CloudError α := do
  let df ← apiResult
  pure df

/-- One iteration of the BigQuery split loop:
query_job.result() then print loaded: no handler around the call. -/
def queryJobResultCell (apiResult : Except CloudError Unit) (tablePath : String) :
    Except CloudError String := do
  let _ ← apiResult
  pure ("Query results loaded to table " ++ tablePath)

/-- One iteration of the export loop: extract_job.result() then print
Exported: no handler around the call. -/
def extractJobResultCell (apiResult : Except CloudError Unit) (uri : String) :
    Except CloudError String := do
  let _ ← apiResult
  pure ("Exported to " ++ uri)

/-- C2 counterexample: the temp_babyweight_dataset creation cell does
not propagate the Conflict raised by the client library: it suppresses
the exception and returns normally with a printed message, so not every
failure surfaces unchanged to the caller. -/
theorem create_dataset_suppresses_conflict :
    createDatasetCell "proj" "temp_babyweight_dataset"
        (Except.error CloudError.conflict) =
      Except.ok "Dataset proj.temp_babyweight_dataset already exists" ∧
    createDatasetCell "proj" "temp_babyweight_dataset"
        (Except.error CloudError.conflict) ≠
      Except.error CloudError.conflict := by
  exact ⟨rfl, fun contra => Except.noConfusion contra⟩

/-- C2 (amended: except for the bare try/except blocks around the
gsutil rm cleanup of the babyweight preprocess and around the two
create_dataset calls, which catch and suppress every exception): those
three cells never let an error escape, and every other operation
propagates the client-library error unchanged to the caller, with no
repository-level recovery, retry, or classification in between. -/
theorem errors_propagate_outside_cleanup :
    (∀ e, gsutilRmCleanup (Except.error e) = Except.ok ()) ∧
    (∀ project dsId e, createDatasetCell project dsId (Except.error e) =
      Except.ok ("Dataset " ++ project ++ "." ++ dsId ++ " already exists")) ∧
    (∀ e, createTaxiDatasetCell (Except.error e) = Except.ok "Dataset already exists") ∧
    (∀ (α : Type) (e : CloudError),
      queryToDataframeCell (α := α) (Except.error e) = Except.error e) ∧
    (∀ e tablePath, queryJobResultCell (Except.error e) tablePath = Except.error e) ∧
    (∀ e uri, extractJobResultCell (Except.error e) uri = Except.error e) :=
  ⟨fun _ => rfl, fun _ _ _ => rfl, fun _ => rfl,
   fun _ _ => rfl, fun _ _ => rfl, fun _ _ => rfl⟩

/-- A heap of Python dictionary objects, addressed by identity: the
deep copies made by the babyweight to_csv live at fresh addresses, so
mutations of the copies are visible only there. -/
abbrev Store := List (Nat × Row)

/-- Dereference an object address. -/
def lookupStore : Store → Nat → Option Row
  | [], _ => none
  | (a, r) :: rest, b => if a = b then some r else lookupStore rest b

/-- The largest address in use. -/
def maxAddr : Store → Nat
  | [] => 0
  | (a, _) :: rest => max a (maxAddr rest)

/-- A fresh address: copy.deepcopy allocates a new object. -/
def freshAddr (st : Store) : Nat := maxAddr st + 1

/-- In-place dictionary update d[k] = v of the object at address a. -/
def setItem : Store → Nat → String → PyVal → Store
  | [], _, _, _ => []
  | (a0, r0) :: rest, a, k, v =>
      if a0 = a then (a0, setKey r0 k v) :: setItem rest a k v
      else (a0, r0) :: setItem rest a k v

/-- An address that dereferences is no larger than the maximum. -/
theorem lookupStore_le_maxAddr {st : Store} {b : Nat} {r : Row}
    (h : lookupStore st b = some r) : b ≤ maxAddr st := by
  induction st with
  | nil => simp [lookupStore] at h
  | cons hd tl ih =>
    obtain ⟨a, r0⟩ := hd
    by_cases hab : a = b
    · subst hab; simp [maxAddr]
    · simp [lookupStore, hab] at h
      have := ih h
      simp [maxAddr]
      omega

/-- Allocating at a different address does not change a dereference. -/
theorem lookupStore_cons_ne {a b : Nat} (r0 : Row) (st : Store) (hab : ¬ a = b) :
    lookupStore ((a, r0) :: st) b = lookupStore st b := by
  simp [lookupStore, hab]

/-- Mutating a different object does not change a dereference. -/
theorem lookupStore_setItem_ne {a b : Nat} (st : Store) (k : String) (v : PyVal)
    (hab : ¬ a = b) : lookupStore (setItem st a k v) b = lookupStore st b := by
  induction st with
  | nil => rfl
  | cons hd tl ih =>
    obtain ⟨a0, r0⟩ := hd
    by_cases h0 : a0 = a
    · subst h0
      simp [setItem, lookupStore, hab, ih]
    · by_cases h1 : a0 = b
      · subst h1
        simp [setItem, lookupStore, h0]
      · simp [setItem, lookupStore, h0, h1, ih]

/-- The babyweight to_csv acting on the object heap, statement by
statement: two deep copies are allocated at fresh addresses, is_male
and plurality of the first copy and plurality of the second copy are
assigned in place, and the two lines are formatted from the copies.
The input dictionary at rowAddr is only ever read. -/
def to_csv_heap (st : Store) (rowAddr : Nat) : Option (Store × List String) :=
  match lookupStore st rowAddr with
  | none => none
  | some rowdict =>
    let nuAddr := freshAddr st
    let st1 : Store := (nuAddr, rowdict) :: st
    let wuAddr := freshAddr st1
    let st2 : Store := (wuAddr, rowdict) :: st1
    let st3 := setItem st2 nuAddr "is_male" (PyVal.str "Unknown")
    match lookupRow rowdict "plurality" with
    | none => none
    | some pv =>
      match pv.toInt? with
      | none => none
      | some p =>
        let st4 :=
          if p > 1 then setItem st3 nuAddr "plurality" (PyVal.str "Multiple(2+)")
          else setItem st3 nuAddr "plurality" (PyVal.str "Single(1)")
        match pyGet pluralityNames (p - 1) with
        | none => none
        | some name =>
          let st5 := setItem st4 wuAddr "plurality" (PyVal.str name)
          match lookupStore st5 nuAddr, lookupStore st5 wuAddr with
          | some nu, some wu => some (st5, [formatRecord nu, formatRecord wu])
          | _, _ => none

/-- The taxi-fare to_csv acting on the object heap: the function only
reads the dictionary and performs no assignment at all, so the heap it
returns is the input heap. -/
def taxi_to_csv_heap (st : Store) (rowAddr : Nat) : Option (Store × String) :=
  match lookupStore st rowAddr with
  | none => none
  | some rowdict =>
    match lookupAll TAXI_CSV_COLUMNS rowdict with
    | none => none
    | some vs => some (st, String.intercalate "," (vs.map pyStr))

/-- Frame property of the babyweight to_csv: every object present
before the call, the input row included, dereferences unchanged after
it; only the two freshly allocated copies are written. -/
theorem heap_frame :
    ∀ (st : Store) (a : Nat) (st' : Store) (out : List String),
      to_csv_heap st a = some (st', out) →
      ∀ (b : Nat) (r : Row), lookupStore st b = some r → lookupStore st' b = some r := by
  intro st a st' out hcall b r hb
  unfold to_csv_heap at hcall
  cases hrd : lookupStore st a with
  | none => rw [hrd] at hcall; exact Option.noConfusion hcall
  | some rowdict =>
    rw [hrd] at hcall
    simp only at hcall
    cases hpv : lookupRow rowdict "plurality" with
    | none => rw [hpv] at hcall; exact Option.noConfusion hcall
    | some pv =>
      rw [hpv] at hcall
      simp only at hcall
      cases hi : pv.toInt? with
      | none => rw [hi] at hcall; exact Option.noConfusion hcall
      | some p =>
        rw [hi] at hcall
        simp only at hcall
        cases hg : pyGet pluralityNames (p - 1) with
        | none => rw [hg] at hcall; exact Option.noConfusion hcall
        | some name =>
          rw [hg] at hcall
          simp only at hcall
          have hbmax : b ≤ maxAddr st := lookupStore_le_maxAddr hb
          have hnub : ¬ freshAddr st = b := by unfold freshAddr; omega
          have hwub : ¬ freshAddr ((freshAddr st, rowdict) :: st) = b := by
            simp only [freshAddr, maxAddr]
            omega
          split at hcall
          · rw [Option.some_inj, Prod.ext_iff] at hcall
            obtain ⟨h1, h2⟩ := hcall
            subst h1
            rw [lookupStore_setItem_ne _ _ _ hwub]
            by_cases hpp : p > 1
            · rw [if_pos hpp, lookupStore_setItem_ne _ _ _ hnub,
                lookupStore_setItem_ne _ _ _ hnub,
                lookupStore_cons_ne _ _ hwub, lookupStore_cons_ne _ _ hnub]
              exact hb
            · rw [if_neg hpp, lookupStore_setItem_ne _ _ _ hnub,
                lookupStore_setItem_ne _ _ _ hnub,
                lookupStore_cons_ne _ _ hwub, lookupStore_cons_ne _ _ hnub]
              exact hb
          · exact Option.noConfusion hcall

/-- C9: each to_csv is side-effect-free with respect to its argument
and everything outside it: after a completed babyweight call every
pre-existing object, the input row dictionary included, dereferences
unchanged (only the two deep copies were written), and a completed
taxi-fare call returns the heap untouched. -/
theorem to_csv_no_external_mutation :
    (∀ (st : Store) (a : Nat) (st' : Store) (out : List String),
      to_csv_heap st a = some (st', out) →
      ∀ (b : Nat) (r : Row), lookupStore st b = some r → lookupStore st' b = some r) ∧
    (∀ (st : Store) (a : Nat) (st' : Store) (out : String),
      taxi_to_csv_heap st a = some (st', out) → st' = st) := by
  constructor
  · exact heap_frame
  · intro st a st' out hcall
    unfold taxi_to_csv_heap at hcall
    cases hrd : lookupStore st a with
    | none => rw [hrd] at hcall; exact Option.noConfusion hcall
    | some rowdict =>
      rw [hrd] at hcall
      simp only at hcall
      cases hv : lookupAll TAXI_CSV_COLUMNS rowdict with
      | none => rw [hv] at hcall; exact Option.noConfusion hcall
      | some vs =>
        rw [hv] at hcall
        simp only at hcall
        rw [Option.some_inj, Prod.ext_iff] at hcall
        exact hcall.1.symm

/-- C9 witness: a concrete call on a one-object heap leaves the input
row object unchanged, and a concrete taxi call returns the input heap. -/
theorem to_csv_no_external_mutation_witness :
    lookupStore
      [(3, [("plurality", PyVal.str "Twins(2)")]),
       (2, [("plurality", PyVal.str "Multiple(2+)"), ("is_male", PyVal.str "Unknown")]),
       (1, [("plurality", PyVal.int 2)])] 1 = some [("plurality", PyVal.int 2)] ∧
    [(4, [("fare_amount", PyVal.int 9), ("dayofweek", PyVal.int 1),
      ("hourofday", PyVal.int 2), ("pickuplon", PyVal.float "1.5"),
      ("pickuplat", PyVal.float "2.5"), ("dropofflon", PyVal.float "3.5"),
      ("dropofflat", PyVal.float "4.5")])] =
    ([(4, [("fare_amount", PyVal.int 9), ("dayofweek", PyVal.int 1),
      ("hourofday", PyVal.int 2), ("pickuplon", PyVal.float "1.5"),
      ("pickuplat", PyVal.float "2.5"), ("dropofflon", PyVal.float "3.5"),
      ("dropofflat", PyVal.float "4.5")])] : Store) :=
  ⟨to_csv_no_external_mutation.1 [(1, [("plurality", PyVal.int 2)])] 1
      [(3, [("plurality", PyVal.str "Twins(2)")]),
       (2, [("plurality", PyVal.str "Multiple(2+)"), ("is_male", PyVal.str "Unknown")]),
       (1, [("plurality", PyVal.int 2)])]
      ["None,Unknown,None,Multiple(2+),None", "None,None,None,Twins(2),None"]
      (by decide) 1 [("plurality", PyVal.int 2)] rfl,
   to_csv_no_external_mutation.2
      [(4, [("fare_amount", PyVal.int 9), ("dayofweek", PyVal.int 1),
        ("hourofday", PyVal.int 2), ("pickuplon", PyVal.float "1.5"),
        ("pickuplat", PyVal.float "2.5"), ("dropofflon", PyVal.float "3.5"),
        ("dropofflat", PyVal.float "4.5")])] 4
      [(4, [("fare_amount", PyVal.int 9), ("dayofweek", PyVal.int 1),
        ("hourofday", PyVal.int 2), ("pickuplon", PyVal.float "1.5"),
        ("pickuplat", PyVal.float "2.5"), ("dropofflon", PyVal.float "3.5"),
        ("dropofflat", PyVal.float "4.5")])]
      "9,1,2,1.5,2.5,3.5,4.5" (by decide)⟩
